import Mathlib

/-!
Verification development for the viajera-digital pipeline core:
YouTube URL recognition and video-id extraction, yt-dlp command
construction, subprocess timeout handling, temporary-file cleanup,
the POST orchestration handler, and the retrying transcription client.

Every definition is a shallow embedding of the corresponding TypeScript
source (src/lib/youtube-audio-extractor.ts, src/app/api/process-youtube-decimas/route.ts,
src/unnamed/part_000), except where a doc comment says the definition is
modelled from the specification because the source file is absent.
-/

namespace ViajeraDigital

/-- The single-quote character, used by the shell-command builder. -/
def squote : Char := Char.ofNat 39

/-- The backslash character. -/
def bslash : Char := Char.ofNat 92

/-- Character class of the regex fragment for video ids: ASCII letters,
digits, underscore and hyphen. -/
def isIdChar (c : Char) : Bool :=
  (('a' ≤ c && c ≤ 'z') || ('A' ≤ c && c ≤ 'Z') || ('0' ≤ c && c ≤ '9')
    || c = '_' || c = '-')

/-- JavaScript line terminators, which the dot of a regex does not match. -/
def isLineTerm (c : Char) : Bool :=
  c = '\n' || c = '\r' || c = Char.ofNat 0x2028 || c = Char.ofNat 0x2029

/-- Strip a literal prefix from a character list, returning the remainder
when the prefix matches. -/
def stripPrefixL : List Char → List Char → Option (List Char)
  | [], l => some l
  | _ :: _, [] => none
  | p :: ps, c :: cs => if p = c then stripPrefixL ps cs else none

/-- The optional scheme part of YOUTUBE_URL_REGEX: the group
matching either https or http followed by the separator, or nothing. -/
def stripScheme (l : List Char) : List Char :=
  match stripPrefixL "https://".data l with
  | some r => r
  | none =>
    match stripPrefixL "http://".data l with
    | some r => r
    | none => l

/-- The optional www-dot part of YOUTUBE_URL_REGEX. -/
def stripWww (l : List Char) : List Char :=
  match stripPrefixL "www.".data l with
  | some r => r
  | none => l

/-- The tail of YOUTUBE_URL_REGEX after the host alternation: exactly
eleven id characters, then optionally an ampersand or question mark
followed by an arbitrary run of non-line-terminator characters, then the
end of the string. -/
def validSuffix : List Char → Bool
  | [] => true
  | c :: cs => (c = '&' || c = '?') && cs.all (fun d => !isLineTerm d)

/-- Match the eleven-character id group followed by a valid suffix,
returning the id. -/
def idAndSuffix (r : List Char) : Option (List Char) :=
  if (r.take 11).length = 11 && (r.take 11).all isIdChar && validSuffix (r.drop 11) then
    some (r.take 11)
  else
    none

/-- Embedding of YOUTUBE_URL_REGEX from src/lib/youtube-audio-extractor.ts:
optional scheme, optional www-dot, one of the two host forms, exactly
eleven id characters, optional query suffix, end of string.  Returns the
characters of capture group 4 (the video id) when the whole string
matches. -/
def matchYouTube (l : List Char) : Option (List Char) :=
  match stripPrefixL "youtube.com/watch?v=".data (stripWww (stripScheme l)) with
  | some r => idAndSuffix r
  | none =>
    match stripPrefixL "youtu.be/".data (stripWww (stripScheme l)) with
    | some r => idAndSuffix r
    | none => none

/-- extractYouTubeVideoId from src/lib/youtube-audio-extractor.ts:
match against YOUTUBE_URL_REGEX and return capture group 4. -/
def extractYouTubeVideoId (url : String) : Option String :=
  (matchYouTube url.data).map (fun t => String.mk t)

/-- isValidYouTubeUrl from src/lib/youtube-audio-extractor.ts:
test against YOUTUBE_URL_REGEX. -/
def isValidYouTubeUrl (url : String) : Bool :=
  (matchYouTube url.data).isSome

/-- Take exactly eleven id-class characters from the front of a list,
as the unanchored capture group of the route's inline regex requires. -/
def take11Class (l : List Char) : Option (List Char) :=
  let tok := l.take 11
  if tok.length = 11 && tok.all isIdChar then some tok else none

/-- The second alternative of the inline regex: the literal youtu-dot-be
host followed by eleven id characters. -/
def inlineAlt2 (l : List Char) : Option (List Char) :=
  match stripPrefixL "youtu.be/".data l with
  | some rest => take11Class rest
  | none => none

/-- One position of the route handler's inline regex
(route.ts line 103): at the current position, first try the
question-mark-or-ampersand v-equals alternative, then the youtu-dot-be
alternative; each captures eleven id characters. -/
def inlineMatchAt (l : List Char) : Option (List Char) :=
  match l with
  | c :: 'v' :: '=' :: rest =>
    if c = '?' || c = '&' then
      match take11Class rest with
      | some tok => some tok
      | none => inlineAlt2 l
    else inlineAlt2 l
  | _ => inlineAlt2 l

/-- Unanchored leftmost search with the inline regex, as
String.prototype.match performs: try each position left to right and
return the first capture. -/
def inlineSearch : List Char → Option (List Char)
  | [] => none
  | c :: cs =>
    match inlineMatchAt (c :: cs) with
    | some t => some t
    | none => inlineSearch cs

/-- The route handler's inline video-id extraction
(route.ts lines 103-104): leftmost match of the inline regex, returning
whichever capture group matched. -/
def inlineVideoId (url : String) : Option String :=
  (inlineSearch url.data).map (fun t => String.mk t)

/-- scanClear pre rest holds when no position of the leftmost search
that starts inside pre (with rest appended after it) matches the inline
regex; used to step the search over a concrete prefix. -/
def scanClear : List Char → List Char → Bool
  | [], _ => true
  | c :: cs, rest => (inlineMatchAt ((c :: cs) ++ rest)).isNone && scanClear cs rest

/-- Check whether one character list occurs as a contiguous substring of
another, as String.prototype.includes does. -/
def containsSub (hay needle : List Char) : Bool :=
  match hay with
  | [] => needle.isEmpty
  | _ :: rest =>
    match stripPrefixL needle hay with
    | some _ => true
    | none => containsSub rest needle

/-- stringIncludes hay needle: String.prototype.includes on the embedded
strings. -/
def stringIncludes (hay needle : String) : Bool :=
  containsSub hay.data needle.data

/-- The replace call of buildYtdlpCommand: every single quote in the
output path is rewritten to quote backslash quote quote. -/
def escapeSingleQuotes (s : List Char) : List Char :=
  match s with
  | [] => []
  | c :: rest =>
    if c = squote then squote :: bslash :: squote :: squote :: escapeSingleQuotes rest
    else c :: escapeSingleQuotes rest

/-- The formatMap lookup of buildYtdlpCommand with its fallback. -/
def formatSelector (fmt : String) : String :=
  if fmt = "mp3" then "bestaudio[ext=mp3]/best"
  else if fmt = "webm" then "bestaudio[ext=webm]/best"
  else if fmt = "m4a" then "bestaudio[ext=m4a]/best"
  else if fmt = "wav" then "bestaudio[ext=wav]/best"
  else "bestaudio[ext=mp3]/best"

/-- buildYtdlpCommand from src/lib/youtube-audio-extractor.ts: joins the
argument pieces with spaces; the output path has its single quotes
escaped and is wrapped in single quotes; the URL is wrapped in single
quotes without any escaping. -/
def buildYtdlpCommand (youtubeUrl outputPath audioFormat audioQuality : String) : String :=
  let output := String.mk (escapeSingleQuotes outputPath.data)
  let q := String.mk [squote]
  String.intercalate " "
    [ "yt-dlp", "-x",
      "--audio-format", audioFormat,
      "--audio-quality", if audioQuality = "lowest" then "128" else "192",
      "-f", formatSelector audioFormat,
      "--quiet", "--no-warnings",
      "-o", q ++ output ++ q,
      q ++ youtubeUrl ++ q ]

/-- Split a shell command string into the words the shell would execute,
for the quoting idioms the built command can contain: spaces separate
words, single quotes protect a literal run, and a backslash outside
quotes escapes the next character.  The flag says whether we are inside
single quotes. -/
def shSplitAux (inQ esc : Bool) : List Char → List Char → List (List Char)
  | [], cur => if cur.isEmpty then [] else [cur]
  | c :: rest, cur =>
    if esc then shSplitAux false false rest (cur ++ [c])
    else if inQ then
      if c = squote then shSplitAux false false rest cur
      else shSplitAux true false rest (cur ++ [c])
    else if c = squote then shSplitAux true false rest cur
    else if c = ' ' then
      (if cur.isEmpty then shSplitAux false false rest []
       else cur :: shSplitAux false false rest [])
    else if c = bslash then shSplitAux false true rest cur
    else shSplitAux false false rest (cur ++ [c])

/-- The words of a shell command string. -/
def shWords (s : String) : List String :=
  (shSplitAux false false s.data []).map String.mk

/-- Behaviour of the external yt-dlp process, abstracted: how long it
would run, and what execAsync would settle with if it finishes (ok
carries stdout and stderr, error carries the rejection message of a
non-zero exit). -/
structure ExecOutcome where
  procTimeMs : Nat
  result : Except String (String × String)

/-- What the promise returned by executeWithTimeout settles with: when it
settles, with what value, and whether the child process was killed. -/
structure ExecSettled where
  settledAtMs : Nat
  outcome : Except String (String × String)
  childKilled : Bool

/-- The rejection message built by the setTimeout callback of
executeWithTimeout. -/
def timeoutMessage (timeoutMs : Nat) : String :=
  "Command execution timed out after " ++ toString timeoutMs ++ "ms"

/-- executeWithTimeout from src/lib/youtube-audio-extractor.ts: a race
between execAsync and a setTimeout rejection.  If the process settles
first, its result is forwarded and the timer cleared; otherwise the
timer rejects with the timeout message.  Nothing in either branch kills
the child process. -/
def executeWithTimeout (timeoutMs : Nat) (proc : ExecOutcome) : ExecSettled :=
  if proc.procTimeMs < timeoutMs then
    { settledAtMs := proc.procTimeMs, outcome := proc.result, childKilled := false }
  else
    { settledAtMs := timeoutMs,
      outcome := Except.error (timeoutMessage timeoutMs),
      childKilled := false }

/-- ExtractionResult from src/lib/youtube-audio-extractor.ts. -/
structure ExtractionResult where
  success : Bool
  audioPath : Option String := none
  filename : Option String := none
  errorMsg : Option String := none
  videoId : Option String := none

/-- Per-request environment of one extractAudio call: the url, what
tmpdir and randomBytes produced, the behaviour of the external process,
and whether the expected output file exists on disk after the process
settles. -/
structure ExtractEnv where
  url : String
  tempDir : String
  randomHex : String
  proc : ExecOutcome
  fileCreatedOnDisk : Bool
  cfgTimeoutMs : Nat := 300000
  cfgFormat : String := "mp3"
  cfgQuality : String := "lowest"

/-- Observable effects of one extractAudio call: whether a subprocess
was spawned, which temporary path (if any) was generated, whether the
non-warning stderr branch logged, and whether the produced path was
registered for cleanup. -/
structure ExtractTrace where
  spawned : Bool
  tempPath : Option String
  warnLogged : Bool
  registered : Bool

/-- extractAudio from src/lib/youtube-audio-extractor.ts: validate the
url, extract the video id, build the temporary path and the command,
run it under the timeout, log non-warning stderr, check the output file,
register the path and return it; any rejection is caught and turned
into a failure result. -/
def extractAudio (env : ExtractEnv) : ExtractionResult × ExtractTrace :=
  let noEffects : ExtractTrace :=
    { spawned := false, tempPath := none, warnLogged := false, registered := false }
  if !isValidYouTubeUrl env.url then
    ({ success := false, errorMsg := some "Invalid YouTube URL format" }, noEffects)
  else
    match extractYouTubeVideoId env.url with
    | none =>
      ({ success := false, errorMsg := some "Could not extract video ID from URL" }, noEffects)
    | some videoId =>
      let filename := "viajera_" ++ videoId ++ "_" ++ env.randomHex ++ "." ++ env.cfgFormat
      let audioPath := env.tempDir ++ "/" ++ filename
      let _ytdlpCommand := buildYtdlpCommand env.url audioPath env.cfgFormat env.cfgQuality
      let settled := executeWithTimeout env.cfgTimeoutMs env.proc
      match settled.outcome with
      | Except.error msg =>
        ({ success := false, errorMsg := some msg },
         { spawned := true, tempPath := some audioPath, warnLogged := false, registered := false })
      | Except.ok (_, stderr) =>
        let warn := stderr ≠ "" && !stringIncludes stderr "WARNING"
        if !env.fileCreatedOnDisk then
          ({ success := false,
             errorMsg := some "Audio extraction failed: Output file not created",
             videoId := some videoId },
           { spawned := true, tempPath := some audioPath, warnLogged := warn, registered := false })
        else
          ({ success := true, audioPath := some audioPath, filename := some filename,
             videoId := some videoId },
           { spawned := true, tempPath := some audioPath, warnLogged := warn, registered := true })

/-- State touched by cleanupFile: which paths exist on disk and which
are in the tempFilesToCleanup registry. -/
structure CleanupState where
  fs : List String
  registry : List String

/-- cleanupFile from src/lib/youtube-audio-extractor.ts: when the path
exists, unlink it and, if the unlink did not throw, drop it from the
registry and return true; when the path is absent, return false without
touching the registry; when the unlink throws, the catch returns false
with nothing dropped from the registry. -/
def cleanupFile (st : CleanupState) (audioPath : String) (unlinkThrows : Bool) :
    Bool × CleanupState :=
  if st.fs.contains audioPath then
    if unlinkThrows then (false, st)
    else
      (true,
       { fs := st.fs.erase audioPath,
         registry := st.registry.erase audioPath })
  else
    (false, st)

/-- getCacheKey from route.ts: namespaced transcript key. -/
def getCacheKey (videoId : String) : String :=
  "viajera:transcript:" ++ videoId

/-- Outcome of the redis.get call inside the handler's try block. -/
inductive CacheGetOutcome where
  | hit (t : String)
  | miss
  | err
deriving DecidableEq, Repr

/-- An HTTP JSON response produced by the POST handler, restricted to
the fields the claims are about. -/
structure HttpResponse where
  status : Nat
  success : Bool
  errorMsg : Option String := none
  transcript : Option String := none
  fromCache : Bool := false
  videoId : Option String := none
  cacheKey : Option String := none
deriving DecidableEq, Repr

/-- Observable effects of one POST handler run. -/
structure HandlerTrace where
  extractCalled : Bool
  cleanupCalls : Nat
  reachedTranscriptionCall : Bool
deriving DecidableEq, Repr

/-- Per-request environment of the POST handler: the admission decision,
the request body, the cache lookup outcome, and the inputs the embedded
extractAudio call needs. -/
structure HandlerEnv where
  rateLimitOk : Bool
  bodyUrl : Option String
  cacheGet : CacheGetOutcome
  tempDir : String
  randomHex : String
  proc : ExecOutcome
  fileCreatedOnDisk : Bool

/-- The message of the TypeError raised at route.ts line 165: POST is a
plain module function, so its this binding is undefined (or the module
namespace object, which does not expose the non-exported
callTranscriptionApi), and calling the missing property throws.  The
exact engine wording of the message is irrelevant to the claims. -/
def thisCallTypeError : String :=
  "this.callTranscriptionApi is not a function"

/-- POST from src/app/api/process-youtube-decimas/route.ts, faithfully:
rate limit, body validation, URL validation, inline video-id
extraction, cache lookup (errors caught and treated as a miss), then on
a miss the extractAudio call; on successful extraction the handler
evaluates this.callTranscriptionApi, which throws before the cleanup
block is reached, so the outer catch returns a generic 500 and
cleanupFile is never invoked. -/
def POST (env : HandlerEnv) : HttpResponse × HandlerTrace :=
  let noCalls : HandlerTrace :=
    { extractCalled := false, cleanupCalls := 0, reachedTranscriptionCall := false }
  if !env.rateLimitOk then
    ({ status := 429, success := false,
       errorMsg := some "Rate limit exceeded. Maximum 10 requests per minute." }, noCalls)
  else
    match env.bodyUrl with
    | none =>
      ({ status := 400, success := false,
         errorMsg := some "YouTube URL is required." }, noCalls)
    | some url =>
      if url = "" then
        ({ status := 400, success := false,
           errorMsg := some "YouTube URL is required." }, noCalls)
      else if !isValidYouTubeUrl url then
        ({ status := 400, success := false,
           errorMsg := some "Invalid YouTube URL format." }, noCalls)
      else
        match inlineVideoId url with
        | none =>
          ({ status := 400, success := false,
             errorMsg := some "Could not extract video ID from URL" }, noCalls)
        | some videoId =>
          let cacheKey := getCacheKey videoId
          let cached : Option String :=
            match env.cacheGet with
            | CacheGetOutcome.hit t => if t = "" then none else some t
            | CacheGetOutcome.miss => none
            | CacheGetOutcome.err => none
          match cached with
          | some t =>
            ({ status := 200, success := true, transcript := some t,
               fromCache := true, videoId := some videoId,
               cacheKey := some cacheKey }, noCalls)
          | none =>
            let extractEnv : ExtractEnv :=
              { url := url, tempDir := env.tempDir, randomHex := env.randomHex,
                proc := env.proc, fileCreatedOnDisk := env.fileCreatedOnDisk }
            let (extractionResult, _) := extractAudio extractEnv
            if !extractionResult.success then
              ({ status := 500, success := false,
                 errorMsg := some (extractionResult.errorMsg.getD
                   "Failed to extract audio from YouTube") },
               { extractCalled := true, cleanupCalls := 0,
                 reachedTranscriptionCall := false })
            else
              match extractionResult.audioPath with
              | none =>
                ({ status := 500, success := false,
                   errorMsg := some "Audio extraction returned no file path" },
                 { extractCalled := true, cleanupCalls := 0,
                   reachedTranscriptionCall := false })
              | some _ =>
                ({ status := 500, success := false,
                   errorMsg := some thisCallTypeError },
                 { extractCalled := true, cleanupCalls := 0,
                   reachedTranscriptionCall := true })

/-- Result shape returned by callTranscriptionApi in route.ts. -/
structure TransApiResult where
  success : Bool
  text : Option String := none
  errorMsg : Option String := none
  code : Option String := none

/-- The post-transcription block of the POST handler as written at
route.ts lines 174 to 211, taken as a function of the transcription
outcome: a failed transcription returns 500 with its code; otherwise
the transcript is read (empty when absent), the redis.setex call is
attempted inside a try whose catch only logs, and the 200 success
response is returned.  The boolean in the result records that the cache
write was attempted. -/
def postTranscription (videoId : String) (tr : TransApiResult)
    (cacheSetThrows : Bool) : HttpResponse × Bool :=
  let cacheKey := getCacheKey videoId
  if !tr.success then
    ({ status := 500, success := false,
       errorMsg := some (tr.errorMsg.getD "Failed to transcribe audio") }, false)
  else
    let transcript := tr.text.getD ""
    let _ := cacheSetThrows
    ({ status := 200, success := true, transcript := some transcript,
       fromCache := false, videoId := some videoId,
       cacheKey := some cacheKey }, true)

/-- Modelled from the spec: the error taxonomy of the Transcription
Client (src/lib/groq-client.ts is referenced by src/unnamed/part_000
but is not under src/). -/
inductive GroqErrorCode where
  | AuthError
  | RateLimited
  | FileTooLarge
  | UnsupportedFormat
  | ServerError
  | Timeout
  | Unknown
deriving DecidableEq, Repr

/-- Modelled from the spec: the distinguishable failure signals of one
external service call, in the order the classification rules inspect
them. -/
structure Signal where
  auth : Bool := false
  rateLimited : Bool := false
  tooLarge : Bool := false
  server5xx : Bool := false
  formatReject : Bool := false
  timeout : Bool := false
deriving DecidableEq, Repr

/-- Modelled from the spec: classification of a failure signal, applied
in priority order: authentication, rate limit, payload too large, 5xx,
format rejection, timeout, otherwise unknown. -/
def classify (s : Signal) : GroqErrorCode :=
  if s.auth then GroqErrorCode.AuthError
  else if s.rateLimited then GroqErrorCode.RateLimited
  else if s.tooLarge then GroqErrorCode.FileTooLarge
  else if s.server5xx then GroqErrorCode.ServerError
  else if s.formatReject then GroqErrorCode.UnsupportedFormat
  else if s.timeout then GroqErrorCode.Timeout
  else GroqErrorCode.Unknown

/-- Modelled from the spec: permanent error kinds, returned without
retrying. -/
def isPermanent : GroqErrorCode → Bool
  | GroqErrorCode.AuthError => true
  | GroqErrorCode.UnsupportedFormat => true
  | GroqErrorCode.FileTooLarge => true
  | _ => false

/-- Modelled from the spec: retry configuration of the Transcription
Client with its defaults. -/
structure RetryConfig where
  maxAttempts : Nat := 3
  baseDelayMs : Nat := 1000
  maxDelayMs : Nat := 10000

/-- The default retry configuration. -/
def defaultRetryConfig : RetryConfig := {}

/-- Modelled from the spec: the computed backoff delay for 0-indexed
attempt n, before jitter. -/
def backoffDelay (cfg : RetryConfig) (n : Nat) : Nat :=
  min (cfg.baseDelayMs * 2 ^ n) cfg.maxDelayMs

/-- Modelled from the spec: the retry loop of transcribe.  The outcomes
function gives the external service result of each 0-indexed attempt.
Returns the final result, the number of attempts made, and the list of
computed pre-jitter backoff delays.  A success returns at once; a
permanent error returns at once; a transient error with attempts left
sleeps for the computed delay and retries; exhausting the cap returns
the last classified error. -/
def transcribeAux (cfg : RetryConfig) (outcomes : Nat → Except Signal String) :
    Nat → Nat → Except GroqErrorCode String × Nat × List Nat
  | _, 0 => (Except.error GroqErrorCode.Unknown, 0, [])
  | n, fuel + 1 =>
    match outcomes n with
    | Except.ok text => (Except.ok text, 1, [])
    | Except.error sig =>
      if isPermanent (classify sig) || fuel == 0 then
        (Except.error (classify sig), 1, [])
      else
        (fun rest => (rest.1, rest.2.1 + 1, backoffDelay cfg n :: rest.2.2))
          (transcribeAux cfg outcomes (n + 1) fuel)

/-- Modelled from the spec: transcribe of the Transcription Client,
performing up to maxAttempts attempts starting at attempt 0. -/
def transcribe (cfg : RetryConfig) (outcomes : Nat → Except Signal String) :
    Except GroqErrorCode String × Nat × List Nat :=
  transcribeAux cfg outcomes 0 cfg.maxAttempts

/-- A URL accepted by YOUTUBE_URL_REGEX whose trailing query suffix
contains single quotes and spaces; used to exhibit the missing URL
escaping in buildYtdlpCommand. -/
def injectionUrl : String :=
  "https://www.youtube.com/watch?v=dQw4w9WgXcQ&x=" ++ String.mk [squote]
    ++ " rm pwned " ++ String.mk [squote]

/-- A handler environment in which extraction succeeds: rate limit ok,
well-formed URL, cache miss, fast successful subprocess, output file
present. -/
def c1Env : HandlerEnv :=
  { rateLimitOk := true,
    bodyUrl := some "https://www.youtube.com/watch?v=dQw4w9WgXcQ",
    cacheGet := CacheGetOutcome.miss,
    tempDir := "/tmp",
    randomHex := "0011223344556677",
    proc := { procTimeMs := 1000, result := Except.ok ("", "") },
    fileCreatedOnDisk := true }

/-- A subprocess that would finish only after the default timeout. -/
def slowProc : ExecOutcome :=
  { procTimeMs := 300001, result := Except.ok ("", "") }

/-- An extraction environment whose subprocess exceeds the default
timeout. -/
def c3Env : ExtractEnv :=
  { url := "https://www.youtube.com/watch?v=dQw4w9WgXcQ",
    tempDir := "/tmp",
    randomHex := "0011223344556677",
    proc := slowProc,
    fileCreatedOnDisk := false }

/-- A cleanup state in which the path is registered for cleanup but the
file is already absent from disk. -/
def c6State : CleanupState :=
  { fs := [], registry := ["/tmp/viajera_dQw4w9WgXcQ_0011223344556677.mp3"] }

/-- An extraction environment whose subprocess exits zero while writing
non-warning diagnostic output to stderr, with the output file present. -/
def c8Env : ExtractEnv :=
  { url := "https://www.youtube.com/watch?v=dQw4w9WgXcQ",
    tempDir := "/tmp",
    randomHex := "0011223344556677",
    proc := { procTimeMs := 1000, result := Except.ok ("", "ERROR: diagnostic output") },
    fileCreatedOnDisk := true }

/-- An extraction environment with a URL the grammar rejects. -/
def c9Env : ExtractEnv :=
  { url := "https://example.com/video",
    tempDir := "/tmp",
    randomHex := "0011223344556677",
    proc := { procTimeMs := 1000, result := Except.ok ("", "") },
    fileCreatedOnDisk := true }

/-- The transcription-call result used to exercise the post-transcription
block. -/
def c7Tr : TransApiResult :=
  { success := true, text := some "alli canta la montana" }

theorem stripPrefixL_append : ∀ (p r : List Char), stripPrefixL p (p ++ r) = some r
  | [], _ => rfl
  | c :: ps, r => by simp [stripPrefixL, stripPrefixL_append ps r]

theorem stripPrefixL_eq_some : ∀ {p l r : List Char}, stripPrefixL p l = some r → l = p ++ r := by
  intro p
  induction p with
  | nil =>
    intro l r h
    simp [stripPrefixL] at h
    simp [h]
  | cons c ps ih =>
    intro l r h
    cases l with
    | nil => simp [stripPrefixL] at h
    | cons d ds =>
      unfold stripPrefixL at h
      by_cases hc : c = d
      · subst hc
        simp at h
        have := ih h
        simp [this]
      · simp [hc] at h

theorem take11Class_append {tok : List Char} (rest : List Char)
    (hlen : tok.length = 11) (hcls : tok.all isIdChar = true) :
    take11Class (tok ++ rest) = some tok := by
  unfold take11Class
  have h1 : (tok ++ rest).take 11 = tok := by
    rw [← hlen]
    exact List.take_left tok rest
  simp [h1, hlen, hcls]

theorem idAndSuffix_append {tok : List Char} (sfx : List Char)
    (hlen : tok.length = 11) (hcls : tok.all isIdChar = true)
    (hsfx : validSuffix sfx = true) :
    idAndSuffix (tok ++ sfx) = some tok := by
  unfold idAndSuffix
  have h1 : (tok ++ sfx).take 11 = tok := by
    rw [← hlen]
    exact List.take_left tok sfx
  have h2 : (tok ++ sfx).drop 11 = sfx := by
    rw [← hlen]
    exact List.drop_left tok sfx
  simp [h1, h2, hlen, hcls, hsfx]

theorem idAndSuffix_eq_some {r tok : List Char} (h : idAndSuffix r = some tok) :
    tok.length = 11 ∧ tok.all isIdChar = true ∧ validSuffix (r.drop 11) = true ∧
      r = tok ++ r.drop 11 := by
  unfold idAndSuffix at h
  split at h
  case isTrue hc =>
    have htok : tok = r.take 11 := by
      injection h with h
      exact h.symm
    subst htok
    simp only [Bool.and_eq_true, decide_eq_true_eq] at hc
    obtain ⟨⟨hlen, hcls⟩, hsfx⟩ := hc
    refine ⟨hlen, hcls, hsfx, (List.take_append_drop 11 r).symm⟩
  case isFalse => exact absurd h (by simp)

theorem stripScheme_decomp (l : List Char) :
    ∃ s, (s = "https://".data ∨ s = "http://".data ∨ s = []) ∧ l = s ++ stripScheme l := by
  rcases h1 : stripPrefixL "https://".data l with _ | r
  · rcases h2 : stripPrefixL "http://".data l with _ | r
    · refine ⟨[], Or.inr (Or.inr rfl), ?_⟩
      have e : stripScheme l = l := by
        unfold stripScheme
        rw [h1, h2]
      rw [e]
      rfl
    · refine ⟨"http://".data, Or.inr (Or.inl rfl), ?_⟩
      have e : stripScheme l = r := by
        unfold stripScheme
        rw [h1, h2]
      rw [e]
      exact stripPrefixL_eq_some h2
  · refine ⟨"https://".data, Or.inl rfl, ?_⟩
    have e : stripScheme l = r := by
      unfold stripScheme
      rw [h1]
    rw [e]
    exact stripPrefixL_eq_some h1

theorem stripWww_decomp (l : List Char) :
    ∃ w, (w = "www.".data ∨ w = []) ∧ l = w ++ stripWww l := by
  rcases h1 : stripPrefixL "www.".data l with _ | r
  · refine ⟨[], Or.inr rfl, ?_⟩
    have e : stripWww l = l := by
      unfold stripWww
      rw [h1]
    rw [e]
    rfl
  · refine ⟨"www.".data, Or.inl rfl, ?_⟩
    have e : stripWww l = r := by
      unfold stripWww
      rw [h1]
    rw [e]
    exact stripPrefixL_eq_some h1

theorem matchYouTube_forms {s w hst tok sfx : List Char}
    (hs : s = "https://".data ∨ s = "http://".data ∨ s = [])
    (hw : w = "www.".data ∨ w = [])
    (hh : hst = "youtube.com/watch?v=".data ∨ hst = "youtu.be/".data)
    (hlen : tok.length = 11) (hcls : tok.all isIdChar = true)
    (hsfx : validSuffix sfx = true) :
    matchYouTube (s ++ (w ++ (hst ++ (tok ++ sfx)))) = some tok := by
  have hmain : idAndSuffix (tok ++ sfx) = some tok := idAndSuffix_append sfx hlen hcls hsfx
  rcases hs with rfl | rfl | rfl <;> rcases hw with rfl | rfl <;> rcases hh with rfl | rfl <;>
    exact hmain

theorem matchYouTube_eq_some {l tok : List Char} (h : matchYouTube l = some tok) :
    ∃ s w hst sfx,
      (s = "https://".data ∨ s = "http://".data ∨ s = []) ∧
      (w = "www.".data ∨ w = []) ∧
      (hst = "youtube.com/watch?v=".data ∨ hst = "youtu.be/".data) ∧
      tok.length = 11 ∧ tok.all isIdChar = true ∧ validSuffix sfx = true ∧
      l = s ++ (w ++ (hst ++ (tok ++ sfx))) := by
  obtain ⟨s, hs, hls⟩ := stripScheme_decomp l
  obtain ⟨w, hw, hlw⟩ := stripWww_decomp (stripScheme l)
  unfold matchYouTube at h
  rcases h1 : stripPrefixL "youtube.com/watch?v=".data (stripWww (stripScheme l)) with _ | r
  · rw [h1] at h
    rcases h2 : stripPrefixL "youtu.be/".data (stripWww (stripScheme l)) with _ | r
    · rw [h2] at h
      exact absurd h (by simp)
    · rw [h2] at h
      obtain ⟨hlen, hcls, hsfx, hr⟩ := idAndSuffix_eq_some h
      refine ⟨s, w, "youtu.be/".data, r.drop 11, hs, hw, Or.inr rfl, hlen, hcls, hsfx, ?_⟩
      rw [hls, hlw, stripPrefixL_eq_some h2, ← hr]
  · rw [h1] at h
    obtain ⟨hlen, hcls, hsfx, hr⟩ := idAndSuffix_eq_some h
    refine ⟨s, w, "youtube.com/watch?v=".data, r.drop 11, hs, hw, Or.inl rfl, hlen, hcls, hsfx, ?_⟩
    rw [hls, hlw, stripPrefixL_eq_some h1, ← hr]

theorem inlineSearch_found {l t : List Char} (h : inlineMatchAt l = some t) :
    inlineSearch l = some t := by
  cases l with
  | nil => exact Option.noConfusion h
  | cons c cs =>
    unfold inlineSearch
    rw [h]

theorem inlineMatchAt_qv {X tok : List Char} (h : take11Class X = some tok) :
    inlineMatchAt ('?' :: 'v' :: '=' :: X) = some tok := by
  have h0 : inlineMatchAt ('?' :: 'v' :: '=' :: X) =
      (match take11Class X with
       | some t => some t
       | none => inlineAlt2 ('?' :: 'v' :: '=' :: X)) := rfl
  rw [h0, h]

theorem inlineSearch_append : ∀ (pre rest : List Char), scanClear pre rest = true →
    inlineSearch (pre ++ rest) = inlineSearch rest
  | [], _, _ => rfl
  | c :: cs, rest, h => by
    simp only [scanClear, List.cons_append, Bool.and_eq_true] at h
    obtain ⟨h1, h2⟩ := h
    have hnone : inlineMatchAt (c :: (cs ++ rest)) = none := Option.isNone_iff_eq_none.mp h1
    have estep : inlineSearch (c :: (cs ++ rest)) =
        (match inlineMatchAt (c :: (cs ++ rest)) with
         | some t => some t
         | none => inlineSearch (cs ++ rest)) := rfl
    rw [List.cons_append, estep, hnone]
    exact inlineSearch_append cs rest h2

theorem inlineSearch_watch (pre : List Char) {tok sfx : List Char}
    (hlen : tok.length = 11) (hcls : tok.all isIdChar = true)
    (hclear : scanClear pre ('?' :: 'v' :: '=' :: (tok ++ sfx)) = true) :
    inlineSearch (pre ++ ('?' :: 'v' :: '=' :: (tok ++ sfx))) = some tok := by
  rw [inlineSearch_append pre _ hclear]
  exact inlineSearch_found (inlineMatchAt_qv (take11Class_append sfx hlen hcls))

theorem inlineSearch_short (pre : List Char) {tok sfx : List Char}
    (hlen : tok.length = 11) (hcls : tok.all isIdChar = true)
    (hclear : scanClear pre ("youtu.be/".data ++ (tok ++ sfx)) = true) :
    inlineSearch (pre ++ ("youtu.be/".data ++ (tok ++ sfx))) = some tok := by
  rw [inlineSearch_append pre _ hclear]
  refine inlineSearch_found ?_
  have h0 : inlineMatchAt ("youtu.be/".data ++ (tok ++ sfx)) = take11Class (tok ++ sfx) := rfl
  rw [h0]
  exact take11Class_append sfx hlen hcls

theorem inline_agrees {l tok : List Char} (h : matchYouTube l = some tok) :
    inlineSearch l = some tok := by
  obtain ⟨s, w, hst, sfx, hs, hw, hh, hlen, hcls, hsfx, rfl⟩ := matchYouTube_eq_some h
  rcases hh with rfl | rfl
  · rcases hs with rfl | rfl | rfl <;> rcases hw with rfl | rfl
    · rw [show "https://".data ++ ("www.".data ++ ("youtube.com/watch?v=".data ++ (tok ++ sfx)))
          = "https://www.youtube.com/watch".data ++ ('?' :: 'v' :: '=' :: (tok ++ sfx)) from rfl]
      exact inlineSearch_watch _ hlen hcls (by rfl)
    · rw [show "https://".data ++ ([] ++ ("youtube.com/watch?v=".data ++ (tok ++ sfx)))
          = "https://youtube.com/watch".data ++ ('?' :: 'v' :: '=' :: (tok ++ sfx)) from rfl]
      exact inlineSearch_watch _ hlen hcls (by rfl)
    · rw [show "http://".data ++ ("www.".data ++ ("youtube.com/watch?v=".data ++ (tok ++ sfx)))
          = "http://www.youtube.com/watch".data ++ ('?' :: 'v' :: '=' :: (tok ++ sfx)) from rfl]
      exact inlineSearch_watch _ hlen hcls (by rfl)
    · rw [show "http://".data ++ ([] ++ ("youtube.com/watch?v=".data ++ (tok ++ sfx)))
          = "http://youtube.com/watch".data ++ ('?' :: 'v' :: '=' :: (tok ++ sfx)) from rfl]
      exact inlineSearch_watch _ hlen hcls (by rfl)
    · rw [show ([] : List Char) ++ ("www.".data ++ ("youtube.com/watch?v=".data ++ (tok ++ sfx)))
          = "www.youtube.com/watch".data ++ ('?' :: 'v' :: '=' :: (tok ++ sfx)) from rfl]
      exact inlineSearch_watch _ hlen hcls (by rfl)
    · rw [show ([] : List Char) ++ ([] ++ ("youtube.com/watch?v=".data ++ (tok ++ sfx)))
          = "youtube.com/watch".data ++ ('?' :: 'v' :: '=' :: (tok ++ sfx)) from rfl]
      exact inlineSearch_watch _ hlen hcls (by rfl)
  · rcases hs with rfl | rfl | rfl <;> rcases hw with rfl | rfl
    · rw [show "https://".data ++ ("www.".data ++ ("youtu.be/".data ++ (tok ++ sfx)))
          = "https://www.".data ++ ("youtu.be/".data ++ (tok ++ sfx)) from rfl]
      exact inlineSearch_short _ hlen hcls (by rfl)
    · rw [show "https://".data ++ ([] ++ ("youtu.be/".data ++ (tok ++ sfx)))
          = "https://".data ++ ("youtu.be/".data ++ (tok ++ sfx)) from rfl]
      exact inlineSearch_short _ hlen hcls (by rfl)
    · rw [show "http://".data ++ ("www.".data ++ ("youtu.be/".data ++ (tok ++ sfx)))
          = "http://www.".data ++ ("youtu.be/".data ++ (tok ++ sfx)) from rfl]
      exact inlineSearch_short _ hlen hcls (by rfl)
    · rw [show "http://".data ++ ([] ++ ("youtu.be/".data ++ (tok ++ sfx)))
          = "http://".data ++ ("youtu.be/".data ++ (tok ++ sfx)) from rfl]
      exact inlineSearch_short _ hlen hcls (by rfl)
    · rw [show ([] : List Char) ++ ("www.".data ++ ("youtu.be/".data ++ (tok ++ sfx)))
          = "www.".data ++ ("youtu.be/".data ++ (tok ++ sfx)) from rfl]
      exact inlineSearch_short _ hlen hcls (by rfl)
    · rw [show ([] : List Char) ++ ([] ++ ("youtu.be/".data ++ (tok ++ sfx)))
          = ([] : List Char) ++ ("youtu.be/".data ++ (tok ++ sfx)) from rfl]
      exact inlineSearch_short _ hlen hcls (by rfl)

theorem isValid_exists_tok {url : String} (h : isValidYouTubeUrl url = true) :
    ∃ tok, matchYouTube url.data = some tok := by
  unfold isValidYouTubeUrl at h
  exact Option.isSome_iff_exists.mp h

theorem isValid_iff_extract (url : String) :
    isValidYouTubeUrl url = true ↔ (extractYouTubeVideoId url).isSome = true := by
  unfold isValidYouTubeUrl extractYouTubeVideoId
  rw [Option.isSome_map']

theorem inlineVideoId_eq_extract {url : String} (h : isValidYouTubeUrl url = true) :
    inlineVideoId url = extractYouTubeVideoId url := by
  obtain ⟨tok, htok⟩ := isValid_exists_tok h
  unfold inlineVideoId extractYouTubeVideoId
  rw [htok, inline_agrees htok]

theorem transcribeAux_perm {cfg : RetryConfig} {o : Nat → Except Signal String}
    {n fuel : Nat} {sig : Signal}
    (h : o n = Except.error sig) (hp : isPermanent (classify sig) = true) :
    transcribeAux cfg o n (fuel + 1) = (Except.error (classify sig), 1, []) := by
  unfold transcribeAux
  rw [h]
  simp [hp]

theorem transcribeAux_trans {cfg : RetryConfig} {o : Nat → Except Signal String}
    {n fuel : Nat} {sig : Signal}
    (h : o n = Except.error sig) (hp : isPermanent (classify sig) = false)
    (hf : (fuel == 0) = false) :
    transcribeAux cfg o n (fuel + 1) =
      ((transcribeAux cfg o (n + 1) fuel).1,
       (transcribeAux cfg o (n + 1) fuel).2.1 + 1,
       backoffDelay cfg n :: (transcribeAux cfg o (n + 1) fuel).2.2) := by
  have e : transcribeAux cfg o n (fuel + 1) =
      (match o n with
       | Except.ok text => (Except.ok text, 1, [])
       | Except.error sig =>
         if isPermanent (classify sig) || fuel == 0 then
           (Except.error (classify sig), 1, [])
         else
           ((transcribeAux cfg o (n + 1) fuel).1,
            (transcribeAux cfg o (n + 1) fuel).2.1 + 1,
            backoffDelay cfg n :: (transcribeAux cfg o (n + 1) fuel).2.2)) := rfl
  rw [e, h]
  simp [hp, hf]

theorem transcribeAux_last {cfg : RetryConfig} {o : Nat → Except Signal String}
    {n : Nat} {sig : Signal} (h : o n = Except.error sig) :
    transcribeAux cfg o n 1 = (Except.error (classify sig), 1, []) := by
  rw [show (1 : Nat) = 0 + 1 from rfl]
  unfold transcribeAux
  rw [h]
  simp

theorem transcribe_perm_default {o : Nat → Except Signal String} {sig : Signal}
    (h : o 0 = Except.error sig) (hp : isPermanent (classify sig) = true) :
    transcribe defaultRetryConfig o = (Except.error (classify sig), 1, []) := by
  rw [show transcribe defaultRetryConfig o = transcribeAux defaultRetryConfig o 0 3 from rfl,
      show (3 : Nat) = 2 + 1 from rfl, transcribeAux_perm h hp]

theorem transcribe_transient_default {o : Nat → Except Signal String} {f : Nat → Signal}
    (hk : ∀ k, o k = Except.error (f k)) (hp : ∀ k, isPermanent (classify (f k)) = false) :
    transcribe defaultRetryConfig o = (Except.error (classify (f 2)), 3, [1000, 2000]) := by
  have s2 : transcribeAux defaultRetryConfig o 2 1 = (Except.error (classify (f 2)), 1, []) :=
    transcribeAux_last (hk 2)
  have s1 : transcribeAux defaultRetryConfig o 1 2 =
      (Except.error (classify (f 2)), 2, [2000]) := by
    rw [show (2 : Nat) = 1 + 1 from rfl,
        @transcribeAux_trans defaultRetryConfig o 1 1 (f 1) (hk 1) (hp 1) rfl,
        show (1 : Nat) + 1 = 2 from rfl, s2]
    rfl
  have s0 : transcribeAux defaultRetryConfig o 0 3 =
      (Except.error (classify (f 2)), 3, [1000, 2000]) := by
    rw [show (3 : Nat) = 2 + 1 from rfl,
        @transcribeAux_trans defaultRetryConfig o 0 2 (f 0) (hk 0) (hp 0) rfl,
        show (0 : Nat) + 1 = 1 from rfl, s1]
    rfl
  exact s0

example : extractYouTubeVideoId "https://www.youtube.com/watch?v=dQw4w9WgXcQ" = some "dQw4w9WgXcQ" := by decide
example : extractYouTubeVideoId "https://youtu.be/dQw4w9WgXcQ" = some "dQw4w9WgXcQ" := by decide
example : extractYouTubeVideoId "https://www.youtube.com/watch?v=dQw4w9WgXcQ&t=10" = some "dQw4w9WgXcQ" := by decide
example : extractYouTubeVideoId "https://example.com/video" = none := by decide
example : isValidYouTubeUrl "youtu.be/dQw4w9WgXcQ" = true := by decide
example : inlineVideoId "https://www.youtube.com/watch?v=dQw4w9WgXcQ" = some "dQw4w9WgXcQ" := by decide
example : inlineVideoId "https://youtu.be/dQw4w9WgXcQ&x=1" = some "dQw4w9WgXcQ" := by decide

theorem post_cacheErr_extracts {env : HandlerEnv} {url : String}
    (h1 : env.rateLimitOk = true) (h2 : env.bodyUrl = some url)
    (hne : url ≠ "") (hv : isValidYouTubeUrl url = true)
    (hc : env.cacheGet = CacheGetOutcome.err) :
    (POST env).2.extractCalled = true := by
  obtain ⟨tok, htok⟩ := isValid_exists_tok hv
  have hinl : inlineVideoId url = some (String.mk tok) := by
    unfold inlineVideoId
    rw [inline_agrees htok]
    rfl
  unfold POST
  simp only [h1, h2, hc, hv, hinl, hne, Bool.not_true, Bool.false_eq_true, if_false, ite_false]
  split
  · rfl
  · split <;> rfl

theorem extract_id_of_valid {url : String} (h : isValidYouTubeUrl url = true) :
    ∃ tok, matchYouTube url.data = some tok ∧
      extractYouTubeVideoId url = some (String.mk tok) := by
  obtain ⟨tok, htok⟩ := isValid_exists_tok h
  refine ⟨tok, htok, ?_⟩
  unfold extractYouTubeVideoId
  rw [htok]
  rfl

theorem executeWithTimeout_expired {timeoutMs : Nat} {proc : ExecOutcome}
    (ht : timeoutMs ≤ proc.procTimeMs) :
    executeWithTimeout timeoutMs proc =
      { settledAtMs := timeoutMs,
        outcome := Except.error (timeoutMessage timeoutMs),
        childKilled := false } := by
  unfold executeWithTimeout
  rw [if_neg (Nat.not_lt.mpr ht)]

theorem executeWithTimeout_fast {timeoutMs : Nat} {proc : ExecOutcome}
    (hf : proc.procTimeMs < timeoutMs) :
    executeWithTimeout timeoutMs proc =
      { settledAtMs := proc.procTimeMs, outcome := proc.result, childKilled := false } := by
  unfold executeWithTimeout
  rw [if_pos hf]

/-- Claim C1: the spec requires the POST handler to invoke cleanupFile
exactly once on the extracted temporary path on every exit of the
extraction-plus-transcription sequence.  In the code as written, the
call this.callTranscriptionApi at route.ts line 165 throws a TypeError
(POST is a plain module function, so the property access on its this
binding fails) before the cleanup block is reached, so on a request
whose extraction succeeds the handler returns the generic 500 of the
outer catch and cleanupFile is invoked zero times: the temporary file
leaks.  This contradicts the handler's own documented workflow and its
unused standalone callTranscriptionApi function, so the code, not the
claim, is wrong. -/
theorem c1_cleanup_never_invoked :
    (POST c1Env).2 = { extractCalled := true, cleanupCalls := 0,
                       reachedTranscriptionCall := true } ∧
    (POST c1Env).1.status = 500 ∧ (POST c1Env).1.success = false ∧
    (extractAudio { url := "https://www.youtube.com/watch?v=dQw4w9WgXcQ",
                    tempDir := "/tmp", randomHex := "0011223344556677",
                    proc := c1Env.proc,
                    fileCreatedOnDisk := true }).1.success = true := by
  refine ⟨rfl, rfl, rfl, rfl⟩

/-- Claim C2: the spec requires both the URL and the output path of the
built downloader command to be escaped so that neither can break out of
its quoting.  buildYtdlpCommand escapes single quotes only in the
output path and splices the URL between bare single quotes, and
YOUTUBE_URL_REGEX accepts single quotes in the trailing query suffix;
on such an accepted URL the quoting is terminated from inside the URL
and new shell words (here the word rm) appear in the command, while a
quote-free URL does occupy exactly one word.  The code contradicts the
hard security invariant the spec states and its own escaping comment,
so this is a code bug. -/
theorem c2_url_injection :
    isValidYouTubeUrl injectionUrl = true ∧
    "rm" ∈ shWords (buildYtdlpCommand injectionUrl "/tmp/out.mp3" "mp3" "lowest") ∧
    shWords (buildYtdlpCommand "https://youtu.be/dQw4w9WgXcQ" "/tmp/out.mp3" "mp3" "lowest") =
      ["yt-dlp", "-x", "--audio-format", "mp3", "--audio-quality", "128", "-f",
       "bestaudio[ext=mp3]/best", "--quiet", "--no-warnings", "-o", "/tmp/out.mp3",
       "https://youtu.be/dQw4w9WgXcQ"] := by
  refine ⟨by decide, by decide, by rfl⟩

/-- Claim C3, counterexample to the termination part: on a process that
would outlive the default 300000 ms timeout, executeWithTimeout settles
with the timeout rejection at the deadline but the child process is not
killed — nothing in the code terminates the external invocation, so the
claim as stated is false. -/
theorem c3_counterexample :
    (executeWithTimeout 300000 slowProc).outcome = Except.error (timeoutMessage 300000) ∧
    (executeWithTimeout 300000 slowProc).settledAtMs = 300000 ∧
    (executeWithTimeout 300000 slowProc).childKilled = false := by
  refine ⟨rfl, rfl, rfl⟩

/-- Claim C3 as amended: when the process outlives the configured
timeout, extractAudio returns a failure result carrying the timeout
message, and the promise settles at the deadline (the caller is not
left hanging); however the external invocation itself is not
terminated — the child is never killed. -/
theorem c3_timeout_returns_failure (env : ExtractEnv)
    (hv : isValidYouTubeUrl env.url = true)
    (ht : env.cfgTimeoutMs ≤ env.proc.procTimeMs) :
    (extractAudio env).1.success = false ∧
    (extractAudio env).1.errorMsg = some (timeoutMessage env.cfgTimeoutMs) ∧
    (executeWithTimeout env.cfgTimeoutMs env.proc).settledAtMs = env.cfgTimeoutMs ∧
    (executeWithTimeout env.cfgTimeoutMs env.proc).childKilled = false := by
  obtain ⟨tok, _, hex⟩ := extract_id_of_valid hv
  have hrun := executeWithTimeout_expired ht
  have hpair : (extractAudio env).1.success = false ∧
      (extractAudio env).1.errorMsg = some (timeoutMessage env.cfgTimeoutMs) := by
    unfold extractAudio
    rw [hv]
    simp only [Bool.not_true, Bool.false_eq_true, if_false]
    rw [hex, hrun]
    simp
  exact ⟨hpair.1, hpair.2, by rw [hrun], by rw [hrun]⟩

theorem c3_witness :
    (extractAudio c3Env).1.success = false ∧
    (extractAudio c3Env).1.errorMsg = some (timeoutMessage c3Env.cfgTimeoutMs) ∧
    (executeWithTimeout c3Env.cfgTimeoutMs c3Env.proc).settledAtMs = c3Env.cfgTimeoutMs ∧
    (executeWithTimeout c3Env.cfgTimeoutMs c3Env.proc).childKilled = false :=
  c3_timeout_returns_failure c3Env (by decide) (by decide)

/-- Claim C4 (the Transcription Client is modelled from the spec, its
source file being absent): a permanent first error yields exactly one
attempt and that classified error; persistent transient errors yield
exactly maxAttempts attempts, the last classified error, and the
computed pre-jitter backoff delays; every computed delay equals
min of baseDelay times two to the attempt index and maxDelay, and is
bounded by maxDelay. -/
theorem c4_retry_policy (outcomes : Nat → Except Signal String) :
    (∀ sig, outcomes 0 = Except.error sig → isPermanent (classify sig) = true →
        transcribe defaultRetryConfig outcomes = (Except.error (classify sig), 1, [])) ∧
    (∀ f : Nat → Signal, (∀ k, outcomes k = Except.error (f k)) →
        (∀ k, isPermanent (classify (f k)) = false) →
        transcribe defaultRetryConfig outcomes =
          (Except.error (classify (f 2)), defaultRetryConfig.maxAttempts,
           [backoffDelay defaultRetryConfig 0, backoffDelay defaultRetryConfig 1])) ∧
    (∀ n, backoffDelay defaultRetryConfig n =
        min (defaultRetryConfig.baseDelayMs * 2 ^ n) defaultRetryConfig.maxDelayMs ∧
        backoffDelay defaultRetryConfig n ≤ defaultRetryConfig.maxDelayMs) := by
  refine ⟨fun sig h hp => transcribe_perm_default h hp,
          fun f hk hp => ?_,
          fun n => ⟨rfl, Nat.min_le_right _ _⟩⟩
  exact transcribe_transient_default hk hp

theorem c4_witness :
    transcribe defaultRetryConfig (fun _ => Except.error { server5xx := true }) =
      (Except.error GroqErrorCode.ServerError, 3, [1000, 2000]) ∧
    transcribe defaultRetryConfig (fun _ => Except.error { auth := true }) =
      (Except.error GroqErrorCode.AuthError, 1, []) := by
  constructor
  · exact (c4_retry_policy (fun _ => Except.error { server5xx := true })).2.1
      (fun _ => { server5xx := true }) (fun _ => rfl) (fun _ => rfl)
  · exact (c4_retry_policy (fun _ => Except.error { auth := true })).1
      { auth := true } rfl rfl

/-- Claim C5: for every eleven-character token over the id alphabet and
every URL in a recognized form (optional scheme, optional www-dot,
canonical watch form or short-link form, optional query suffix)
carrying that token, extractYouTubeVideoId returns exactly that token;
determinism is immediate since the extraction is a pure function. -/
theorem c5_recognized_forms (scheme www host tok sfx : String)
    (hs : scheme = "" ∨ scheme = "http://" ∨ scheme = "https://")
    (hw : www = "" ∨ www = "www.")
    (hh : host = "youtube.com/watch?v=" ∨ host = "youtu.be/")
    (hlen : tok.length = 11) (hcls : tok.data.all isIdChar = true)
    (hsfx : validSuffix sfx.data = true) :
    extractYouTubeVideoId (scheme ++ www ++ host ++ tok ++ sfx) = some tok := by
  have hd : (scheme ++ www ++ host ++ tok ++ sfx).data
      = scheme.data ++ (www.data ++ (host.data ++ (tok.data ++ sfx.data))) := by
    simp [String.data_append, List.append_assoc]
  unfold extractYouTubeVideoId
  rw [hd]
  have hs' : scheme.data = "https://".data ∨ scheme.data = "http://".data
      ∨ scheme.data = [] := by
    rcases hs with rfl | rfl | rfl
    · exact Or.inr (Or.inr rfl)
    · exact Or.inr (Or.inl rfl)
    · exact Or.inl rfl
  have hw' : www.data = "www.".data ∨ www.data = [] := by
    rcases hw with rfl | rfl
    · exact Or.inr rfl
    · exact Or.inl rfl
  have hh' : host.data = "youtube.com/watch?v=".data ∨ host.data = "youtu.be/".data := by
    rcases hh with rfl | rfl
    · exact Or.inl rfl
    · exact Or.inr rfl
  rw [matchYouTube_forms hs' hw' hh' hlen hcls hsfx]
  rfl

theorem c5_witness :
    extractYouTubeVideoId ("https://" ++ "www." ++ "youtube.com/watch?v=" ++ "dQw4w9WgXcQ" ++ "&t=10")
      = some "dQw4w9WgXcQ" ∧
    extractYouTubeVideoId ("" ++ "" ++ "youtu.be/" ++ "dQw4w9WgXcQ" ++ "")
      = some "dQw4w9WgXcQ" := by
  constructor
  · exact c5_recognized_forms "https://" "www." "youtube.com/watch?v=" "dQw4w9WgXcQ" "&t=10"
      (Or.inr (Or.inr rfl)) (Or.inr rfl) (Or.inl rfl) (by decide) (by decide) (by decide)
  · exact c5_recognized_forms "" "" "youtu.be/" "dQw4w9WgXcQ" ""
      (Or.inl rfl) (Or.inl rfl) (Or.inr rfl) (by decide) (by decide) (by decide)

/-- Claim C6, counterexample to the registry part: calling cleanupFile
on a path that is registered for cleanup but already absent on disk
returns false, as the claim says, but leaves the path in the
pending-cleanup registry, contradicting the claim that the path is
removed from the registry regardless of outcome. -/
theorem c6_counterexample :
    (cleanupFile c6State "/tmp/viajera_dQw4w9WgXcQ_0011223344556677.mp3" false).1 = false ∧
    ((cleanupFile c6State "/tmp/viajera_dQw4w9WgXcQ_0011223344556677.mp3" false).2.registry.contains
        "/tmp/viajera_dQw4w9WgXcQ_0011223344556677.mp3") = true := by
  refine ⟨rfl, rfl⟩

/-- Claim C6 as amended: cleanupFile returns false, not an error, when
the path is absent, and removes the path from the pending-cleanup
registry only when the deletion itself succeeds; on the absent-path and
deletion-error paths the state, registry included, is unchanged. -/
theorem c6_cleanup_behaviour (st : CleanupState) (p : String) (uf : Bool) :
    (st.fs.contains p = false → cleanupFile st p uf = (false, st)) ∧
    (st.fs.contains p = true → uf = false →
      cleanupFile st p uf = (true, { fs := st.fs.erase p, registry := st.registry.erase p })) ∧
    (st.fs.contains p = true → uf = true → cleanupFile st p uf = (false, st)) := by
  unfold cleanupFile
  refine ⟨fun h => ?_, fun h hf => ?_, fun h hf => ?_⟩
  · rw [h]
    rfl
  · subst hf
    rw [h]
    rfl
  · subst hf
    rw [h]
    rfl

theorem c6_witness :
    cleanupFile { fs := ["/tmp/x.mp3"], registry := ["/tmp/x.mp3"] } "/tmp/x.mp3" false =
      (true, { fs := [], registry := [] }) := by
  have h := (c6_cleanup_behaviour { fs := ["/tmp/x.mp3"], registry := ["/tmp/x.mp3"] }
    "/tmp/x.mp3" false).2.1 (by decide) rfl
  rw [h]
  rfl

/-- Claim C7: a cache-store error never changes a request's outcome: a
handler run whose cache lookup raises is identical, response and
effects, to the same run on a cache miss (and on such a run the
pipeline does proceed to extraction), and the post-transcription block
produces the same successful response whether the cache write raises or
succeeds. -/
theorem c7_cache_errors_nonfatal :
    (∀ env : HandlerEnv,
        POST { env with cacheGet := CacheGetOutcome.err } =
        POST { env with cacheGet := CacheGetOutcome.miss }) ∧
    (∀ (env : HandlerEnv) (url : String), env.rateLimitOk = true → env.bodyUrl = some url →
        url ≠ "" → isValidYouTubeUrl url = true → env.cacheGet = CacheGetOutcome.err →
        (POST env).2.extractCalled = true) ∧
    (∀ videoId tr, postTranscription videoId tr true = postTranscription videoId tr false) :=
  ⟨fun _ => rfl,
   fun _ _ h1 h2 h3 h4 h5 => post_cacheErr_extracts h1 h2 h3 h4 h5,
   fun _ _ => rfl⟩

theorem c7_witness :
    POST { c1Env with cacheGet := CacheGetOutcome.err } = POST c1Env ∧
    (POST { c1Env with cacheGet := CacheGetOutcome.err }).2.extractCalled = true ∧
    postTranscription "dQw4w9WgXcQ" c7Tr true = postTranscription "dQw4w9WgXcQ" c7Tr false := by
  refine ⟨c7_cache_errors_nonfatal.1 c1Env, ?_, c7_cache_errors_nonfatal.2.2 "dQw4w9WgXcQ" c7Tr⟩
  exact c7_cache_errors_nonfatal.2.1 { c1Env with cacheGet := CacheGetOutcome.err }
    "https://www.youtube.com/watch?v=dQw4w9WgXcQ" rfl rfl (by decide) (by decide) rfl

/-- Claim C8, counterexample: a subprocess run that exits zero while
emitting stderr that contains no warning marker, with the output file
present, still yields a successful extraction — non-warning stderr only
triggers a log line, it never produces a ProcessError failure, so the
claim as stated is false. -/
theorem c8_counterexample :
    stringIncludes "ERROR: diagnostic output" "WARNING" = false ∧
    (extractAudio c8Env).1.success = true ∧
    (extractAudio c8Env).2.warnLogged = true := by
  refine ⟨by decide, rfl, rfl⟩

/-- Claim C8 as amended: stderr output never affects the outcome of
extractAudio: any stderr combined with a zero exit and a present output
file yields success (non-warning stderr is merely logged), while a
non-zero exit (a rejected exec promise) yields a failure result
carrying the rejection message. -/
theorem c8_stderr_exit_behaviour (env : ExtractEnv)
    (hv : isValidYouTubeUrl env.url = true)
    (hfast : env.proc.procTimeMs < env.cfgTimeoutMs) :
    (∀ out err, env.proc.result = Except.ok (out, err) → env.fileCreatedOnDisk = true →
        (extractAudio env).1.success = true) ∧
    (∀ msg, env.proc.result = Except.error msg →
        (extractAudio env).1.success = false ∧
        (extractAudio env).1.errorMsg = some msg) := by
  obtain ⟨tok, _, hex⟩ := extract_id_of_valid hv
  have hrun := executeWithTimeout_fast hfast
  constructor
  · intro out err hres hfile
    unfold extractAudio
    rw [hv]
    simp only [Bool.not_true, Bool.false_eq_true, if_false]
    rw [hex, hrun]
    simp [hres, hfile]
  · intro msg hres
    refine ⟨?_, ?_⟩ <;>
      · unfold extractAudio
        rw [hv]
        simp only [Bool.not_true, Bool.false_eq_true, if_false]
        rw [hex, hrun]
        simp [hres]

theorem c8_witness :
    (extractAudio c8Env).1.success = true :=
  (c8_stderr_exit_behaviour c8Env (by decide) (by decide)).1
    "" "ERROR: diagnostic output" rfl rfl

/-- Claim C9: for every URL the grammar rejects, extractAudio returns a
failure immediately: no subprocess is spawned and no temporary path is
generated. -/
theorem c9_invalid_no_subprocess (env : ExtractEnv)
    (h : isValidYouTubeUrl env.url = false) :
    (extractAudio env).1.success = false ∧
    (extractAudio env).2.spawned = false ∧
    (extractAudio env).2.tempPath = none ∧
    (extractAudio env).1.errorMsg = some "Invalid YouTube URL format" := by
  unfold extractAudio
  simp [h]

theorem c9_witness :
    (extractAudio c9Env).1.success = false ∧
    (extractAudio c9Env).2.spawned = false ∧
    (extractAudio c9Env).2.tempPath = none ∧
    (extractAudio c9Env).1.errorMsg = some "Invalid YouTube URL format" :=
  c9_invalid_no_subprocess c9Env (by decide)

/-- Claim C10: validity and extractability agree — isValidYouTubeUrl
accepts a URL exactly when extractYouTubeVideoId yields an identifier —
and on every accepted URL the handler's inline regex extraction yields
the same identifier as extractYouTubeVideoId, so the cache key is
derived from the identifier the extractor uses. -/
theorem c10_id_agreement :
    (∀ url : String, isValidYouTubeUrl url = true ↔ (extractYouTubeVideoId url).isSome = true) ∧
    (∀ url : String, isValidYouTubeUrl url = true →
        inlineVideoId url = extractYouTubeVideoId url) :=
  ⟨isValid_iff_extract, fun _ h => inlineVideoId_eq_extract h⟩

theorem c10_witness :
    inlineVideoId "https://www.youtube.com/watch?v=dQw4w9WgXcQ"
      = extractYouTubeVideoId "https://www.youtube.com/watch?v=dQw4w9WgXcQ" ∧
    (extractYouTubeVideoId "https://youtu.be/dQw4w9WgXcQ").isSome = true := by
  constructor
  · exact c10_id_agreement.2 "https://www.youtube.com/watch?v=dQw4w9WgXcQ" (by decide)
  · exact (c10_id_agreement.1 "https://youtu.be/dQw4w9WgXcQ").mp (by decide)

end ViajeraDigital
